import Mathlib

/-!
Shallow embedding of `src/examples/nanoChatGPT/models/reward.py`.

The file defines the class `RewardModel(GPT2PreTrainedModel)` and the factory
`init_reward_model(config)`.  Tensors are modelled with explicit shape fields
and rational contents; Python objects holding a mutable transformer body are
modelled with an explicit store (address-indexed list of transformer bodies),
so that `deepcopy` versus aliasing is observable.  Framework code that the file
merely calls (`init_transformer`, `GPT2PreTrainedModel.from_pretrained`,
`crop_block_size`, `torch.compile`, `TensorDictModule`, the GPT-2 body itself)
is not under `src/`; those parts are modelled from the spec and marked so in
their doc comments.
-/

namespace Reward

/-- A batch of token-id sequences, shape `(batch, seqLen)`. -/
structure InputBatch where
  batch : Nat
  seqLen : Nat
  ids : Nat → Nat → Nat

/-- A rank-3 tensor of shape `(batch, seqLen, feat)`. -/
structure Tensor3 where
  batch : Nat
  seqLen : Nat
  feat : Nat
  data : Nat → Nat → Nat → ℚ

/-- A rank-2 tensor of shape `(batch, feat)`. -/
structure Tensor2 where
  batch : Nat
  feat : Nat
  data : Nat → Nat → ℚ

/-- Shape of a rank-3 tensor as a list of dimensions. -/
def Tensor3.shape (t : Tensor3) : List Nat := [t.batch, t.seqLen, t.feat]

/-- Shape of a rank-2 tensor as a list of dimensions. -/
def Tensor2.shape (t : Tensor2) : List Nat := [t.batch, t.feat]

/-- `torch.nn.Linear`: a linear layer with `weight o i` the entry of the
weight matrix at output row `o`, input column `i`; `bias` records whether a
bias vector is present (`nn.Linear(..., bias=False)` sets it to `false`). -/
structure Linear where
  in_features : Nat
  out_features : Nat
  bias : Bool
  weight : Nat → Nat → ℚ
  biasData : Nat → ℚ

/-- Apply a linear layer along the last axis of a rank-3 tensor
(`self.lm_head(hidden_states)` in the source). -/
def Linear.apply3 (l : Linear) (t : Tensor3) : Tensor3 where
  batch := t.batch
  seqLen := t.seqLen
  feat := l.out_features
  data := fun b s o =>
    (Finset.range l.in_features).sum (fun i => l.weight o i * t.data b s i) +
      (if l.bias then l.biasData o else 0)

/-- GPT-2 model configuration (the fields the source reads). -/
structure GPTConfig where
  n_positions : Nat
  n_embd : Nat
  vocab_size : Nat

/-- A GPT-2 transformer body.  `params` is its (abstract) parameter store and
`hiddenData` gives the hidden-state entries it computes for an input batch.
The body is kept behind a store address so that Python reference semantics
(`deepcopy` versus aliasing) is observable. -/
structure TransformerBody where
  n_positions : Nat
  n_embd : Nat
  params : Nat → ℚ
  hiddenData : InputBatch → Nat → Nat → Nat → ℚ

/-- The hidden-states tensor produced by a transformer body on an input batch:
shape `(batch, seqLen, n_embd)` (this is `transformer_outputs[0]`). -/
def TransformerBody.hiddenStates (tb : TransformerBody) (x : InputBatch) : Tensor3 where
  batch := x.batch
  seqLen := x.seqLen
  feat := tb.n_embd
  data := tb.hiddenData x

/-- Modelled from the spec: the GPT-2 body itself lives in the external
framework, not under `src/`.  Calling it on a batch whose sequence length
exceeds the configured context length `n_positions` fails (spec section 8,
property 2: no error exactly when sequences are within the limit); otherwise
it returns the hidden states. -/
def TransformerBody.applyT (tb : TransformerBody) (x : InputBatch) : Option Tensor3 :=
  if x.seqLen ≤ tb.n_positions then some (tb.hiddenStates x) else none

/-- The store of transformer-body objects; an address is an index. -/
abbrev Store := List TransformerBody

/-- Default body used when reading an invalid address. -/
def emptyBody : TransformerBody where
  n_positions := 0
  n_embd := 0
  params := fun _ => 0
  hiddenData := fun _ _ _ _ => 0

/-- Read the body at an address. -/
def Store.getB (s : Store) (a : Nat) : TransformerBody :=
  List.getD s a emptyBody

/-- Allocate a fresh body, returning the new store and its address. -/
def Store.alloc (s : Store) (b : TransformerBody) : Store × Nat :=
  (s ++ [b], List.length s)

/-- Overwrite the body at an address (mutation of the object it names). -/
def Store.setB (s : Store) (a : Nat) (b : TransformerBody) : Store :=
  List.set s a b

/-- `copy.deepcopy` on a transformer body: allocate a fresh object with the
same contents and return its (new) address. -/
def deepcopy (s : Store) (a : Nat) : Store × Nat :=
  s.alloc (s.getB a)

/-- The source model handed to `RewardModel.__init__`: a pretrained GPT-2
causal language model with a transformer body (held by reference) and an
`lm_head` output projection. -/
structure SourceModel where
  config : GPTConfig
  transformerAddr : Nat
  lm_head : Linear

/-- Modelled from the spec: the pretrained model comes from `init_transformer`
(file `.transformer`, not under `src/`).  Per spec section 1 it is a
causal language model: its bound `forward` maps a token batch to per-position
vocabulary logits through its own `lm_head`. -/
def SourceModel.sourceForward (s : Store) (m : SourceModel) (x : InputBatch) :
    Option Tensor3 :=
  ((s.getB m.transformerAddr).applyT x).map m.lm_head.apply3

/-- The `RewardModel` object.  `forwardInst` is the instance-dictionary entry
named `forward`: Python attribute lookup finds an instance attribute before
the class method, so when it is `some m` an invocation `rm.forward(x)` runs
the bound method `m.forward`. -/
structure RewardModel where
  config : GPTConfig
  transformerAddr : Nat
  block_size : Nat
  lm_head : Linear
  model_parallel : Bool
  device_map : Option Unit
  forwardInst : Option SourceModel

/-- `RewardModel.__init__(self, model)`, line by line:
`super().__init__(model.config)`; `self.transformer = deepcopy(model.transformer)`;
`self.block_size = model.config.n_positions`;
`self.lm_head = nn.Linear(model.lm_head.in_features, 1, bias=False)` (the
framework draws the fresh weight `w`); `self.model_parallel = False`;
`self.device_map = None`; `self.forward = model.forward`. -/
def RewardModel.init (s : Store) (model : SourceModel) (w : Nat → Nat → ℚ) :
    Store × RewardModel :=
  let p := deepcopy s model.transformerAddr
  (p.1,
    { config := model.config
      transformerAddr := p.2
      block_size := model.config.n_positions
      lm_head :=
        { in_features := model.lm_head.in_features
          out_features := 1
          bias := false
          weight := w
          biasData := fun _ => 0 }
      model_parallel := false
      device_map := none
      forwardInst := some model })

/-- The body of the method `RewardModel.forward(self, input_ids)`:
read `batch_size, sequence_length`; run `self.transformer`; take
`transformer_outputs[0]`; apply `self.lm_head`; return `logits[:, -1, :]`.
Index `-1` is position `seqLen - 1` when the sequence dimension is nonempty;
on an empty sequence dimension the indexing raises an `IndexError`, so the
result is `none` there. -/
def RewardModel.forwardMethod (s : Store) (rm : RewardModel) (x : InputBatch) :
    Option Tensor2 :=
  let batch_size := x.batch
  let sequence_length := x.seqLen
  match (s.getB rm.transformerAddr).applyT x with
  | none => none
  | some transformer_outputs =>
    let hidden_states := transformer_outputs
    let logits := rm.lm_head.apply3 hidden_states
    if sequence_length = 0 then none
    else
      some
        { batch := batch_size
          feat := logits.feat
          data := fun b o => logits.data b (sequence_length - 1) o }

/-- A tensor value returned by an invocation of `forward`: either the rank-2
result of the class method body or the rank-3 logits of the source model. -/
inductive TensorVal where
  | t2 (t : Tensor2)
  | t3 (t : Tensor3)

/-- Shape of a returned tensor value. -/
def TensorVal.shape : TensorVal → List Nat
  | .t2 t => t.shape
  | .t3 t => t.shape

/-- Invoking `rm.forward(x)`: Python attribute lookup takes the instance
attribute when present (running the source model's bound forward), and the
class method body otherwise. -/
def RewardModel.callForward (s : Store) (rm : RewardModel) (x : InputBatch) :
    Option TensorVal :=
  match rm.forwardInst with
  | some m => (m.sourceForward s x).map TensorVal.t3
  | none => (rm.forwardMethod s x).map TensorVal.t2

/-- The configuration mapping read by `init_reward_model` (the keys it uses). -/
structure Config where
  init_reward_from : String
  dropout : ℚ
  block_size : Nat
  out_dir_reward : String
  device : String

/-- An observable side effect performed by `init_reward_model`, in program
order: instantiating a transformer from scratch, constructing the
`RewardModel` wrapper, loading a checkpoint, cropping the block size, moving
the model to a device, compiling it, and wrapping it in a `TensorDictModule`. -/
inductive Effect where
  | initTransformerE
  | constructRewardModel
  | loadCheckpoint
  | cropE
  | toDevice
  | compileE
  | wrapTDM
  deriving DecidableEq

/-- The environment of framework operations `init_reward_model` delegates to,
together with the initial object store.  `init_transformer` (file
`.transformer`) and `RewardModel.from_pretrained` (Hugging Face) are not under
`src/`; modelled from the spec as oracles producing a model (from-scratch
initialisation, resume-from-checkpoint loading).  `fresh_head_weight` is the
framework's random initialisation of the new `nn.Linear` head. -/
structure Env where
  store : Store
  init_transformer : Config → SourceModel
  from_pretrained : String → ℚ → Store → Store × RewardModel
  fresh_head_weight : Nat → Nat → ℚ

/-- Modelled from the spec: `crop_block_size` is imported from `.utils`, not
under `src/`.  Per spec section 4 (d) it truncates the positional context
length: the transformer body's position limit and the model's configured
`n_positions` and `block_size` become the new block size. -/
def crop_block_size (s : Store) (rm : RewardModel) (bs : Nat) : Store × RewardModel :=
  (s.setB rm.transformerAddr { s.getB rm.transformerAddr with n_positions := bs },
    { rm with
        config := { rm.config with n_positions := bs }
        block_size := bs })

/-- `torch.compile(model)`: graph compilation wraps the module without
changing the computed function; modelled as the identity on the module. -/
def torch_compile (rm : RewardModel) : RewardModel := rm

/-- `TensorDictModule(module, in_keys, out_keys)` from the `tensordict`
library: a wrapper that reads its input at `in_keys` and writes its result at
`out_keys`. -/
structure TensorDictModule where
  module : RewardModel
  in_keys : List String
  out_keys : List String

/-- The `if config["init_reward_from"] == ... / elif ... / else raise` branch
of `init_reward_model`: from scratch, build a transformer and wrap it in a
`RewardModel`; on resume, load with `from_pretrained(out_dir_reward,
**model_kwargs)` (the kwargs are the three dropout rates, all
`config["dropout"]`); otherwise raise the unrecognized-option `ValueError`. -/
def init_branch (env : Env) (cfg : Config) :
    Except String (List Effect × Store × RewardModel) :=
  if cfg.init_reward_from = "scratch" then
    let model := env.init_transformer cfg
    let p := RewardModel.init env.store model env.fresh_head_weight
    .ok ([Effect.initTransformerE, Effect.constructRewardModel], p.1, p.2)
  else if cfg.init_reward_from = "resume" then
    let p := env.from_pretrained cfg.out_dir_reward cfg.dropout env.store
    .ok ([Effect.loadCheckpoint], p.1, p.2)
  else
    .error ("option " ++ cfg.init_reward_from ++ " not recognised")

/-- The straight-line tail of `init_reward_model` after the branch: crop the
block size when `config["block_size"] < model.config.n_positions`, move to
`config["device"]`, `torch.compile`, and wrap in a
`TensorDictModule(model, in_keys=["input"], out_keys=["reward"])`. -/
def finish_init (cfg : Config) (s : Store) (rm : RewardModel) :
    List Effect × Store × TensorDictModule :=
  let q : List Effect × Store × RewardModel :=
    if cfg.block_size < rm.config.n_positions then
      let p := crop_block_size s rm cfg.block_size
      ([Effect.cropE], p.1, p.2)
    else ([], s, rm)
  (q.1 ++ [Effect.toDevice, Effect.compileE, Effect.wrapTDM], q.2.1,
    { module := torch_compile q.2.2
      in_keys := ["input"]
      out_keys := ["reward"] })

/-- `init_reward_model(config)`: the branch on `config["init_reward_from"]`
followed by crop, device placement, compilation and `TensorDictModule`
wrapping.  Returns the trace of effects performed alongside the result (the
trace is empty when the unrecognized-option error is raised). -/
def init_reward_model (env : Env) (cfg : Config) :
    List Effect × Except String (Store × TensorDictModule) :=
  match init_branch env cfg with
  | .error e => ([], .error e)
  | .ok (effs, s, rm) =>
    let r := finish_init cfg s rm
    (effs ++ r.1, .ok (r.2.1, r.2.2))

/-- Whether a run of `init_reward_model` ended in the raised error. -/
def isErr (r : Except String (Store × TensorDictModule)) : Bool :=
  match r with
  | .error _ => true
  | .ok _ => false

/-- The in/out keys of the returned `TensorDictModule` on a successful run. -/
def resultKeys (r : Except String (Store × TensorDictModule)) :
    Option (List String × List String) :=
  match r with
  | .ok p => some (p.2.in_keys, p.2.out_keys)
  | .error _ => none

/-- The configured context length (`model.config.n_positions`) of the model
produced by the initialisation branch, before any cropping. -/
def branch_nPos (env : Env) (cfg : Config) : Option Nat :=
  match init_branch env cfg with
  | .ok (_, _, rm) => some rm.config.n_positions
  | .error _ => none

/-- The configured context length of the module returned on a successful run. -/
def finalNPos (r : List Effect × Except String (Store × TensorDictModule)) :
    Option Nat :=
  match r.2 with
  | .ok p => some p.2.module.config.n_positions
  | .error _ => none

/-! Concrete instances used by witnesses and counterexamples. -/

/-- A small concrete transformer body: context length 4, hidden size 1. -/
def body0 : TransformerBody where
  n_positions := 4
  n_embd := 1
  params := fun _ => 0
  hiddenData := fun _ _ _ _ => 1

/-- A store holding `body0` at address 0. -/
def store0 : Store := [body0]

/-- A small concrete source model over `body0`, vocabulary size 3. -/
def m0 : SourceModel where
  config := { n_positions := 4, n_embd := 1, vocab_size := 3 }
  transformerAddr := 0
  lm_head :=
    { in_features := 1
      out_features := 3
      bias := false
      weight := fun _ _ => 1
      biasData := fun _ => 0 }

/-- A concrete fresh weight for the reward head. -/
def w0 : Nat → Nat → ℚ := fun _ _ => 1

/-- The store and `RewardModel` produced by constructing on `m0`. -/
def rmInit0 : Store × RewardModel := RewardModel.init store0 m0 w0

/-- A concrete input batch of shape `(1, 2)`. -/
def x0 : InputBatch where
  batch := 1
  seqLen := 2
  ids := fun _ _ => 0

/-- A concrete environment over `store0` and `m0`. -/
def env0 : Env where
  store := store0
  init_transformer := fun _ => m0
  from_pretrained := fun _ _ s => RewardModel.init s m0 w0
  fresh_head_weight := w0

/-- A configuration selecting from-scratch initialisation, block size 2. -/
def cfgScratch : Config where
  init_reward_from := "scratch"
  dropout := 0
  block_size := 2
  out_dir_reward := "out"
  device := "cpu"

/-- A concrete empty-sequence batch of shape `(1, 0)`. -/
def xEmpty : InputBatch where
  batch := 1
  seqLen := 0
  ids := fun _ _ => 0

/-- A configuration with an unrecognized initialisation mode. -/
def cfgBad : Config where
  init_reward_from := "gpt2"
  dropout := 0
  block_size := 2
  out_dir_reward := "out"
  device := "cpu"

/-! The claims. -/

/-- Claim C1, evaluation at a failing input: on the model constructed from
`m0`, invoking `forward` on the `(1, 2)` batch `x0` returns the source
model's per-position vocabulary logits, of shape `(1, 2, 3)` — not the
claimed `(batch, 1) = (1, 1)` — because the instance attribute set by
`self.forward = model.forward` shadows the class's `forward` method. -/
theorem claim1_forward_output_not_batch_one :
    (RewardModel.callForward rmInit0.1 rmInit0.2 x0).map TensorVal.shape
        = some [1, 2, 3] ∧
      ([1, 2, 3] : List Nat) ≠ [x0.batch, 1] := by
  exact ⟨by decide, by decide⟩

/-- Claim C2: the constructor sets the instance attribute `forward` to the
source model's bound forward, so invoking `forward` on the constructed
instance runs the source model's forward (through the source model's own,
unreplaced `lm_head`) under any store, and never the `forward` method body
defined in the `RewardModel` class. -/
theorem claim2_instance_attr_shadows_method (s : Store) (model : SourceModel)
    (w : Nat → Nat → ℚ) (s2 : Store) (x : InputBatch) :
    (RewardModel.init s model w).2.forwardInst = some model ∧
      RewardModel.callForward s2 (RewardModel.init s model w).2 x
        = (model.sourceForward s2 x).map TensorVal.t3 ∧
      ∀ t : Tensor2,
        RewardModel.callForward s2 (RewardModel.init s model w).2 x
          ≠ some (TensorVal.t2 t) := by
  refine ⟨rfl, rfl, ?_⟩
  intro t h
  have h2 : (model.sourceForward s2 x).map TensorVal.t3 = some (TensorVal.t2 t) := h
  cases hs : model.sourceForward s2 x with
  | none => rw [hs] at h2; exact Option.noConfusion h2
  | some t3 =>
    rw [hs] at h2
    exact TensorVal.noConfusion (Option.some.inj h2)

/-- Claim C6: the constructor replaces the output projection with
`nn.Linear(model.lm_head.in_features, 1, bias=False)`: a bias-free linear map
from the source head's input dimension to exactly one output unit. -/
theorem claim6_head_is_unit_linear (s : Store) (model : SourceModel)
    (w : Nat → Nat → ℚ) :
    (RewardModel.init s model w).2.lm_head.in_features = model.lm_head.in_features ∧
      (RewardModel.init s model w).2.lm_head.out_features = 1 ∧
      (RewardModel.init s model w).2.lm_head.bias = false :=
  ⟨rfl, rfl, rfl⟩

/-- Claim C3: `init_reward_model` fails with the unrecognized-option error
exactly when `config["init_reward_from"]` is neither `"scratch"` nor
`"resume"`, and in that case the result is the `ValueError` message; for the
two recognized values the function itself raises no such error. -/
theorem claim3_error_iff_unrecognized_mode (env : Env) (cfg : Config) :
    (isErr (init_reward_model env cfg).2 = true ↔
        cfg.init_reward_from ≠ "scratch" ∧ cfg.init_reward_from ≠ "resume") ∧
      (cfg.init_reward_from ≠ "scratch" ∧ cfg.init_reward_from ≠ "resume" →
        (init_reward_model env cfg).2
          = .error ("option " ++ cfg.init_reward_from ++ " not recognised")) := by
  unfold init_reward_model init_branch
  by_cases h1 : cfg.init_reward_from = "scratch" <;>
    by_cases h2 : cfg.init_reward_from = "resume" <;>
    simp [h1, h2, isErr]

/-- Claim C3 witness: on the unrecognized mode `"gpt2"` the factory reports
the error. -/
theorem claim3_witness :
    isErr (init_reward_model env0 cfgBad).2 = true ∧
      (init_reward_model env0 cfgBad).2
        = .error ("option " ++ cfgBad.init_reward_from ++ " not recognised") :=
  ⟨(claim3_error_iff_unrecognized_mode env0 cfgBad).1.mpr (by decide),
    (claim3_error_iff_unrecognized_mode env0 cfgBad).2 (by decide)⟩

/-- Claim C4: with an unrecognized initialisation mode, `init_reward_model`
raises before anything else happens: the effect trace is empty (no
transformer instantiation, no checkpoint load, no crop, no device placement,
no compilation, no wrapping) and the result is the error. -/
theorem claim4_error_before_any_effect (env : Env) (cfg : Config)
    (h : cfg.init_reward_from ≠ "scratch" ∧ cfg.init_reward_from ≠ "resume") :
    init_reward_model env cfg
      = ([], .error ("option " ++ cfg.init_reward_from ++ " not recognised")) := by
  unfold init_reward_model init_branch
  simp [h.1, h.2]

/-- Claim C4 witness at the unrecognized mode `"gpt2"`. -/
theorem claim4_witness :
    (cfgBad.init_reward_from ≠ "scratch" ∧ cfgBad.init_reward_from ≠ "resume") ∧
      init_reward_model env0 cfgBad
        = ([], .error ("option " ++ cfgBad.init_reward_from ++ " not recognised")) :=
  ⟨by decide, claim4_error_before_any_effect env0 cfgBad (by decide)⟩

/-- Claim C10: on every successful run (either recognized mode), the factory
returns a `TensorDictModule` reading from key `"input"` and writing to key
`"reward"`. -/
theorem claim10_wrapped_with_input_reward_keys (env : Env) (cfg : Config)
    (h : cfg.init_reward_from = "scratch" ∨ cfg.init_reward_from = "resume") :
    resultKeys (init_reward_model env cfg).2 = some (["input"], ["reward"]) := by
  unfold init_reward_model init_branch
  rcases h with h | h <;> simp [h, resultKeys, finish_init]

/-- Claim C10 witness on the from-scratch configuration. -/
theorem claim10_witness :
    resultKeys (init_reward_model env0 cfgScratch).2 = some (["input"], ["reward"]) :=
  claim10_wrapped_with_input_reward_keys env0 cfgScratch (Or.inl rfl)

/-- Claim C5: the reward computed by the `forward` method body is the reward
head applied to the transformer's hidden states, indexed at the last sequence
position (`logits[:, -1, :]`), for every batch element; its shape is
`(batch, out_features)` with `out_features` the head's output dimension. -/
theorem claim5_reward_is_head_at_last_position (s : Store) (rm : RewardModel)
    (x : InputBatch) (b o : Nat) (hlen : 0 < x.seqLen)
    (hfit : x.seqLen ≤ (s.getB rm.transformerAddr).n_positions) :
    (rm.forwardMethod s x).map (fun t => t.data b o)
        = some ((rm.lm_head.apply3
            ((s.getB rm.transformerAddr).hiddenStates x)).data b (x.seqLen - 1) o) ∧
      (rm.forwardMethod s x).map Tensor2.shape
        = some [x.batch, rm.lm_head.out_features] := by
  unfold RewardModel.forwardMethod TransformerBody.applyT
  simp [hfit, hlen.ne', Tensor2.shape, Linear.apply3]

/-- Claim C5 witness on the model constructed from `m0` and the batch `x0`. -/
theorem claim5_witness :
    (0 < x0.seqLen ∧
        x0.seqLen ≤ (rmInit0.1.getB rmInit0.2.transformerAddr).n_positions) ∧
      (rmInit0.2.forwardMethod rmInit0.1 x0).map (fun t => t.data 0 0)
          = some ((rmInit0.2.lm_head.apply3
              ((rmInit0.1.getB rmInit0.2.transformerAddr).hiddenStates x0)).data 0
              (x0.seqLen - 1) 0) ∧
        (rmInit0.2.forwardMethod rmInit0.1 x0).map Tensor2.shape
          = some [x0.batch, rmInit0.2.lm_head.out_features] :=
  ⟨⟨by decide, by decide⟩,
    claim5_reward_is_head_at_last_position rmInit0.1 rmInit0.2 x0 0 0
      (by decide) (by decide)⟩

/-- Reading back the body at the address just written by `crop_block_size`
yields the body with its position limit replaced (helper). -/
theorem crop_getB_self (s : Store) (rm : RewardModel) (bs : Nat)
    (h : rm.transformerAddr < List.length s) :
    (crop_block_size s rm bs).1.getB (crop_block_size s rm bs).2.transformerAddr
      = { s.getB rm.transformerAddr with n_positions := bs } := by
  show Store.getB (s.set rm.transformerAddr _) rm.transformerAddr = _
  unfold Store.getB
  rw [List.getD_eq_getElem?_getD, List.getElem?_set_self h]
  rfl

/-- The address allocated by the constructor is valid in the returned store
(helper). -/
theorem init_addr_lt (s : Store) (m : SourceModel) (w : Nat → Nat → ℚ) :
    (RewardModel.init s m w).2.transformerAddr
      < List.length (RewardModel.init s m w).1 := by
  show List.length s < List.length (s ++ [s.getB m.transformerAddr])
  simp

/-- Claim C7: construction deep-copies the transformer body rather than
aliasing it: the new model holds a different address whose contents equal the
source body, the source body is untouched by construction, and overwriting
the new model's body afterwards leaves the source model's body as it was. -/
theorem claim7_transformer_deepcopied (s : Store) (m : SourceModel)
    (w : Nat → Nat → ℚ) (h : m.transformerAddr < List.length s) :
    (RewardModel.init s m w).2.transformerAddr ≠ m.transformerAddr ∧
      (RewardModel.init s m w).1.getB m.transformerAddr = s.getB m.transformerAddr ∧
      (RewardModel.init s m w).1.getB (RewardModel.init s m w).2.transformerAddr
        = s.getB m.transformerAddr ∧
      ∀ b : TransformerBody,
        ((RewardModel.init s m w).1.setB
            (RewardModel.init s m w).2.transformerAddr b).getB m.transformerAddr
          = s.getB m.transformerAddr := by
  refine ⟨(Nat.ne_of_lt h).symm, ?_, ?_, ?_⟩
  · show Store.getB (s ++ [s.getB m.transformerAddr]) m.transformerAddr
      = s.getB m.transformerAddr
    unfold Store.getB
    rw [List.getD_eq_getElem?_getD, List.getD_eq_getElem?_getD,
      List.getElem?_append_left h]
  · show Store.getB (s ++ [s.getB m.transformerAddr]) (List.length s)
      = s.getB m.transformerAddr
    unfold Store.getB
    rw [List.getD_eq_getElem?_getD, List.getElem?_concat_length]
    rfl
  · intro b
    show Store.getB ((s ++ [s.getB m.transformerAddr]).set (List.length s) b)
        m.transformerAddr = s.getB m.transformerAddr
    unfold Store.getB
    rw [List.getD_eq_getElem?_getD, List.getD_eq_getElem?_getD,
      List.getElem?_set_ne (Nat.ne_of_lt h).symm, List.getElem?_append_left h]

/-- Claim C7 witness on `store0` and `m0`. -/
theorem claim7_witness :
    m0.transformerAddr < List.length store0 ∧
      ((RewardModel.init store0 m0 w0).2.transformerAddr ≠ m0.transformerAddr ∧
        (RewardModel.init store0 m0 w0).1.getB m0.transformerAddr
          = store0.getB m0.transformerAddr ∧
        (RewardModel.init store0 m0 w0).1.getB
            (RewardModel.init store0 m0 w0).2.transformerAddr
          = store0.getB m0.transformerAddr ∧
        ∀ b : TransformerBody,
          ((RewardModel.init store0 m0 w0).1.setB
              (RewardModel.init store0 m0 w0).2.transformerAddr b).getB
              m0.transformerAddr
            = store0.getB m0.transformerAddr) :=
  ⟨by decide, claim7_transformer_deepcopied store0 m0 w0 (by decide)⟩

/-- Claim C8: the factory crops the context length exactly when the
configured `block_size` is strictly below the branch model's `n_positions`;
it then becomes `block_size`, and otherwise the context length of the
returned module is unchanged. -/
theorem claim8_crop_iff_block_size_smaller (env : Env) (cfg : Config)
    (effs : List Effect) (s : Store) (rm : RewardModel)
    (h : init_branch env cfg = .ok (effs, s, rm)) :
    (Effect.cropE ∈ (init_reward_model env cfg).1
        ↔ cfg.block_size < rm.config.n_positions) ∧
      finalNPos (init_reward_model env cfg)
        = some (if cfg.block_size < rm.config.n_positions then cfg.block_size
            else rm.config.n_positions) := by
  have hnc : Effect.cropE ∉ effs := by
    unfold init_branch at h
    by_cases h1 : cfg.init_reward_from = "scratch"
    · rw [if_pos h1] at h
      simp only [Except.ok.injEq, Prod.mk.injEq] at h
      obtain ⟨he, -, -⟩ := h
      rw [← he]
      decide
    · rw [if_neg h1] at h
      by_cases h2 : cfg.init_reward_from = "resume"
      · rw [if_pos h2] at h
        simp only [Except.ok.injEq, Prod.mk.injEq] at h
        obtain ⟨he, -, -⟩ := h
        rw [← he]
        decide
      · rw [if_neg h2] at h
        exact Except.noConfusion h
  unfold init_reward_model
  rw [h]
  unfold finish_init finalNPos
  by_cases hc : cfg.block_size < rm.config.n_positions <;>
    simp [hc, crop_block_size, torch_compile, hnc, List.mem_append]

/-- Claim C8 witness on the from-scratch configuration (block size 2, model
context length 4, so the crop branch is taken and the final context length is
the block size). -/
theorem claim8_witness :
    init_branch env0 cfgScratch
        = .ok ([Effect.initTransformerE, Effect.constructRewardModel],
            rmInit0.1, rmInit0.2) ∧
      ((Effect.cropE ∈ (init_reward_model env0 cfgScratch).1
          ↔ cfgScratch.block_size < rmInit0.2.config.n_positions) ∧
        finalNPos (init_reward_model env0 cfgScratch)
          = some (if cfgScratch.block_size < rmInit0.2.config.n_positions then
              cfgScratch.block_size else rmInit0.2.config.n_positions)) :=
  ⟨rfl,
    claim8_crop_iff_block_size_smaller env0 cfgScratch
      [Effect.initTransformerE, Effect.constructRewardModel] rmInit0.1 rmInit0.2 rfl⟩

/-- Claim C9 counterexample: the empty batch `(1, 0)` has sequence length
within the cropped limit 2, yet the `forward` method body errors on it
(`logits[:, -1, :]` indexes a size-0 dimension), so the claim as stated —
no error for every batch within the new limit — is false. -/
theorem claim9_counterexample :
    xEmpty.seqLen ≤ 2 ∧
      (crop_block_size (RewardModel.init store0 m0 w0).1
            (RewardModel.init store0 m0 w0).2 2).2.forwardMethod
          (crop_block_size (RewardModel.init store0 m0 w0).1
            (RewardModel.init store0 m0 w0).2 2).1 xEmpty
        = none :=
  ⟨by decide, rfl⟩

/-- Claim C9 as amended: after cropping the context length down to a smaller
block size, the `forward` method body succeeds on every batch with at least
one token whose sequence length is within the new limit, and its output
shape is still `(batch, 1)`. -/
theorem claim9_forward_after_crop (s : Store) (m : SourceModel)
    (w : Nat → Nat → ℚ) (bs : Nat) (x : InputBatch)
    (_hsmall : bs < (s.getB m.transformerAddr).n_positions)
    (hlen : 0 < x.seqLen) (hfit : x.seqLen ≤ bs) :
    ((crop_block_size (RewardModel.init s m w).1
          (RewardModel.init s m w).2 bs).2.forwardMethod
        (crop_block_size (RewardModel.init s m w).1
          (RewardModel.init s m w).2 bs).1 x).map Tensor2.shape
      = some [x.batch, 1] := by
  unfold RewardModel.forwardMethod TransformerBody.applyT
  rw [crop_getB_self _ _ _ (init_addr_lt s m w)]
  simp [hfit, hlen.ne', Tensor2.shape, Linear.apply3]
  show ((crop_block_size _ _ _).2).lm_head.out_features = 1
  rfl

/-- Claim C9 witness: crop from context length 4 to 2 and score the `(1, 2)`
batch `x0`. -/
theorem claim9_witness :
    (2 < (store0.getB m0.transformerAddr).n_positions ∧ 0 < x0.seqLen ∧
        x0.seqLen ≤ 2) ∧
      ((crop_block_size (RewardModel.init store0 m0 w0).1
            (RewardModel.init store0 m0 w0).2 2).2.forwardMethod
          (crop_block_size (RewardModel.init store0 m0 w0).1
            (RewardModel.init store0 m0 w0).2 2).1 x0).map Tensor2.shape
        = some [x0.batch, 1] :=
  ⟨⟨by decide, by decide, by decide⟩,
    claim9_forward_after_crop store0 m0 w0 2 x0 (by decide) (by decide) (by decide)⟩

end Reward
